import Mathlib

/-!
Validation of the parallel-install configuration.

Shallow embedding of `parallel-install/pkg/config/config.go`: the `Config`
record, `Config.pathExists` and `Config.Validate`.

* A Go `error` built by `fmt.Errorf` is modelled by its message, `nil` by `none`.
* `Validate` has a pointer receiver and calls `os.Stat`; both the record the
  receiver points to and the filesystem are part of an explicit `World` that
  every operation threads through, together with the log of `os.Stat` calls.
* The filesystem is modelled by what `os.Stat` answers for each path.
-/

namespace ParallelInstall

/-! ## Data model -/

/-- Error numbers `stat(2)` can report for a path name. -/
inductive Errno
  | ENOENT
  | ENOTDIR
  | EACCES
  | ELOOP
  | ENAMETOOLONG
  | ENOMEM
  | EOVERFLOW
  | EINVAL
  deriving DecidableEq, Repr

/-- The pair `(FileInfo, error)` returned by `os.Stat`: either file
information (here: whether the entry is a directory) or an error. -/
inductive StatResult
  | info (isDir : Bool)
  | fail (e : Errno)
  deriving DecidableEq, Repr

/-- The `error` component of the pair returned by `os.Stat` (`none` is `nil`). -/
def StatResult.err : StatResult → Option Errno
  | .info _ => none
  | .fail e => some e

/-- A filesystem state, as far as `os.Stat` observes it. -/
abbrev FileSystem := String → StatResult

/-- The Go struct `Config`. `time.Duration` and `int` are integers (no
arithmetic is done on them), `Log` is a function value or `nil`. -/
structure Config where
  WorkersCount : Int
  CancelTimeout : Int
  QuitTimeout : Int
  HelmTimeoutSeconds : Int
  BackoffInitialIntervalSeconds : Int
  BackoffMaxElapsedTimeSeconds : Int
  Log : Option (String → List String → String)
  HelmMaxRevisionHistory : Int
  Profile : String
  ComponentsListFile : String
  ResourcePath : String
  CrdPath : String
  Version : String

/-- Everything a call of `Validate` can read or write: the record behind the
receiver pointer, the filesystem, and the paths handed to `os.Stat` so far. -/
structure World where
  recv : Config
  fs : FileSystem
  statLog : List String

/-! ## Library functions used by the source -/

/-- Go `os.IsNotExist`: true exactly for an error whose cause is
`ErrNotExist` (`ENOENT`); false for `nil` and for every other error. -/
def os.IsNotExist : Option Errno → Bool
  | some .ENOENT => true
  | _ => false

/-- Go `os.Stat`: answers from the filesystem, which it leaves unchanged; the
call is recorded in the log. -/
def os.Stat (w : World) (name : String) : StatResult × World :=
  (w.fs name, ⟨w.recv, w.fs, w.statLog ++ [name]⟩)

/-! ## The source functions -/

/-- Source `(c *Config) pathExists(path, description)`. -/
def Config.pathExists (w : World) (path description : String) : Option String × World :=
  if path = "" then
    (some (description ++ " is empty"), w)
  else
    let r := os.Stat w path
    if os.IsNotExist r.1.err then
      (some (description ++ " '" ++ path ++ "' not found"), r.2)
    else
      (none, r.2)

/-- Source `(c *Config) Validate()`; `w.recv` is `*c`. -/
def Config.Validate (w : World) : Option String × World :=
  if w.recv.WorkersCount ≤ 0 then
    (some "Workers count cannot be <= 0", w)
  else
    match Config.pathExists w w.recv.ComponentsListFile "Components list" with
    | (some err, w1) => (some err, w1)
    | (none, w1) =>
      match Config.pathExists w1 w1.recv.ResourcePath "Resource path" with
      | (some err, w2) => (some err, w2)
      | (none, w2) =>
        match Config.pathExists w2 w2.recv.CrdPath "CRD path" with
        | (some err, w3) => (some err, w3)
        | (none, w3) =>
          if w3.recv.Version = "" then
            (some "Version is empty", w3)
          else
            (none, w3)

/-! ## Reference validator: the first failing check -/

/-- The path exists on the filesystem: `os.Stat` on it succeeds. -/
def statSucceeds (fs : FileSystem) (path : String) : Bool :=
  match fs path with
  | .info _ => true
  | .fail _ => false

/-- The answer of `os.Stat` on the path is a not-exist error. -/
def statNotExist (fs : FileSystem) (path : String) : Bool :=
  os.IsNotExist (fs path).err

/-- The answer of `os.Stat` on the path is anything but a not-exist error:
success, or a failure for another reason. -/
def statNotMissing (fs : FileSystem) (path : String) : Bool :=
  !statNotExist fs path

namespace Reference

/-- A path check of the reference validator, relative to the predicate
`present` deciding which paths count as existing: an empty path fails with
"is empty", a path that is not present fails with "not found" plus the path. -/
def pathCheck (present : String → Bool) (path description : String) : Option String :=
  if path = "" then
    some (description ++ " is empty")
  else if present path then
    none
  else
    some (description ++ " '" ++ path ++ "' not found")

/-- The five checks in the documented order; each is `none` when it passes and
carries its error when it fails. The texts of the first and the last error
are those of the source. -/
def checks (present : String → Bool) (c : Config) : List (Option String) :=
  [ if 0 < c.WorkersCount then none else some "Workers count cannot be <= 0",
    pathCheck present c.ComponentsListFile "Components list",
    pathCheck present c.ResourcePath "Resource path",
    pathCheck present c.CrdPath "CRD path",
    if c.Version ≠ "" then none else some "Version is empty" ]

/-- The error of the first failing check, `none` when every check passes. -/
def firstFailing : List (Option String) → Option String
  | [] => none
  | some e :: _ => some e
  | none :: rest => firstFailing rest

/-- The reference validator. -/
def Validate (present : String → Bool) (c : Config) : Option String :=
  firstFailing (checks present c)

/-- The field of the record tested by check number `k` (counted from 0). -/
def tested (k : Nat) (c : Config) : Int ⊕ String :=
  match k with
  | 0 => .inl c.WorkersCount
  | 1 => .inr c.ComponentsListFile
  | 2 => .inr c.ResourcePath
  | 3 => .inr c.CrdPath
  | _ => .inr c.Version

end Reference


/-! ## Which return statement a call reaches -/

/-- The three path-valued fields of the record. -/
inductive PathField
  | componentsListFile
  | resourcePath
  | crdPath
  deriving DecidableEq, Repr

/-- The description `Validate` passes to `pathExists` for each path field. -/
def PathField.description : PathField → String
  | .componentsListFile => "Components list"
  | .resourcePath => "Resource path"
  | .crdPath => "CRD path"

/-- The failing return statements of `Validate` and `pathExists`: which check
failed, for which reason, and on which path. -/
inductive Failure
  | workersCount
  | pathEmpty (field : PathField)
  | pathNotFound (field : PathField) (path : String)
  | versionEmpty
  deriving DecidableEq, Repr

/-- The message `fmt.Errorf` builds at each failing return statement. -/
def Failure.message : Failure → String
  | .workersCount => "Workers count cannot be <= 0"
  | .pathEmpty field => field.description ++ " is empty"
  | .pathNotFound field path => field.description ++ " '" ++ path ++ "' not found"
  | .versionEmpty => "Version is empty"

/-- The return statement of `pathExists` reached for a path field: the control
flow of the source, with each failing return named instead of formatted. -/
def Config.pathFailure (fs : FileSystem) (path : String) (field : PathField) :
    Option Failure :=
  if path = "" then
    some (.pathEmpty field)
  else if os.IsNotExist (fs path).err then
    some (.pathNotFound field path)
  else
    none

/-- The return statement of `Validate` reached in a world: the control flow of
the source, with each failing return named instead of formatted. -/
def Config.failedCheck (w : World) : Option Failure :=
  if w.recv.WorkersCount ≤ 0 then
    some .workersCount
  else
    match Config.pathFailure w.fs w.recv.ComponentsListFile .componentsListFile with
    | some f => some f
    | none =>
      match Config.pathFailure w.fs w.recv.ResourcePath .resourcePath with
      | some f => some f
      | none =>
        match Config.pathFailure w.fs w.recv.CrdPath .crdPath with
        | some f => some f
        | none => if w.recv.Version = "" then some .versionEmpty else none

namespace Reference

/-- The paths a call hands to `os.Stat`, in order: a path is probed when its
check is reached and the path is non-empty. -/
def probes (fs : FileSystem) (c : Config) : List String :=
  if c.WorkersCount ≤ 0 then []
  else if c.ComponentsListFile = "" then []
  else if statNotExist fs c.ComponentsListFile then [c.ComponentsListFile]
  else if c.ResourcePath = "" then [c.ComponentsListFile]
  else if statNotExist fs c.ResourcePath then [c.ComponentsListFile, c.ResourcePath]
  else if c.CrdPath = "" then [c.ComponentsListFile, c.ResourcePath]
  else [c.ComponentsListFile, c.ResourcePath, c.CrdPath]

end Reference

/-! ## Concrete records and filesystems -/

namespace Sample

/-- A filesystem holding a components file and two directories; below the
components file (a regular file) nothing can be looked up, `/root/kyma` may
not be searched, every other path is absent. -/
def disk : FileSystem := fun p =>
  if p = "/kyma/components.yaml" then .info false
  else if p = "/kyma/resources" then .info true
  else if p = "/kyma/crds" then .info true
  else if p = "/kyma/components.yaml/list" then .fail .ENOTDIR
  else if p = "/root/kyma/crds" then .fail .EACCES
  else .fail .ENOENT

/-- A fully valid record: four workers, three existing paths, version 1.2.3. -/
def valid : Config where
  WorkersCount := 4
  CancelTimeout := 900
  QuitTimeout := 1200
  HelmTimeoutSeconds := 360
  BackoffInitialIntervalSeconds := 3
  BackoffMaxElapsedTimeSeconds := 60
  Log := none
  HelmMaxRevisionHistory := 10
  Profile := "evaluation"
  ComponentsListFile := "/kyma/components.yaml"
  ResourcePath := "/kyma/resources"
  CrdPath := "/kyma/crds"
  Version := "1.2.3"

/-- The valid record with the components list placed below a regular file. -/
def belowFile : Config :=
  ⟨4, 900, 1200, 360, 3, 60, none, 10, "evaluation",
    "/kyma/components.yaml/list", "/kyma/resources", "/kyma/crds", "1.2.3"⟩

/-- The valid record with a components list that is absent from the disk. -/
def missingList : Config :=
  ⟨4, 900, 1200, 360, 3, 60, none, 10, "evaluation",
    "/kyma/missing.yaml", "/kyma/resources", "/kyma/crds", "1.2.3"⟩

/-- A record that shares only the worker count and the absent components
list with `missingList`. -/
def missingListOnly : Config :=
  ⟨4, 0, 0, 0, 0, 0, none, 0, "production", "/kyma/missing.yaml", "", "/nowhere", ""⟩

/-- The valid record with the CRD path in a directory that may not be searched. -/
def unreadable : Config :=
  ⟨4, 900, 1200, 360, 3, 60, none, 10, "evaluation",
    "/kyma/components.yaml", "/kyma/resources", "/root/kyma/crds", "1.2.3"⟩

/-- The valid record with no workers. -/
def noWorkers : Config :=
  ⟨0, 900, 1200, 360, 3, 60, none, 10, "evaluation",
    "/kyma/components.yaml", "/kyma/resources", "/kyma/crds", "1.2.3"⟩

/-- A record with one worker and three empty paths. -/
def noPaths : Config :=
  ⟨1, 900, 1200, 360, 3, 60, none, 10, "evaluation", "", "", "", "1.2.3"⟩

/-- The valid record with an empty version. -/
def noVersion : Config :=
  ⟨4, 900, 1200, 360, 3, 60, none, 10, "evaluation",
    "/kyma/components.yaml", "/kyma/resources", "/kyma/crds", ""⟩

/-- The valid record with other values in every field `Validate` does not
read; its quit timeout is below its cancel timeout. -/
def quitBeforeCancel : Config :=
  ⟨4, 1200, 900, -1, 0, -7, some (fun format _ => format), 0, "no such profile",
    "/kyma/components.yaml", "/kyma/resources", "/kyma/crds", "1.2.3"⟩

/-- The valid record with three paths on which `os.Stat` fails for a reason
other than not-exist: one below a regular file, two in a directory that may
not be searched. -/
def unreachable : Config :=
  ⟨4, 900, 1200, 360, 3, 60, none, 10, "evaluation",
    "/kyma/components.yaml/list", "/root/kyma/crds", "/root/kyma/crds", "1.2.3"⟩

/-- The valid record with a resource path that is absent from the disk. -/
def missingResources : Config :=
  ⟨4, 900, 1200, 360, 3, 60, none, 10, "evaluation",
    "/kyma/components.yaml", "/kyma/nothing", "/kyma/crds", "1.2.3"⟩

/-- The valid record with one existing directory in all three path fields. -/
def sameDirectory : Config :=
  ⟨4, 900, 1200, 360, 3, 60, none, 10, "evaluation",
    "/kyma/resources", "/kyma/resources", "/kyma/resources", "1.2.3"⟩

end Sample

/-! ## Basic facts about the embedding -/

/-- The world left by `pathExists` has the same record and filesystem. -/
theorem pathExists_frame (w : World) (path description : String) :
    (Config.pathExists w path description).2.recv = w.recv ∧
    (Config.pathExists w path description).2.fs = w.fs := by
  unfold Config.pathExists os.Stat
  by_cases hp : path = ""
  · simp [hp]
  · by_cases hs : os.IsNotExist (w.fs path).err = true <;> simp [hp, hs]

/-- The error returned by `pathExists` depends on the filesystem only. -/
theorem pathExists_result (w : World) (path description : String) :
    (Config.pathExists w path description).1 =
      Reference.pathCheck (statNotMissing w.fs) path description := by
  unfold Config.pathExists os.Stat Reference.pathCheck statNotMissing statNotExist
  by_cases hp : path = ""
  · simp [hp]
  · by_cases hs : os.IsNotExist (w.fs path).err = true <;> simp [hp, hs]

/-- The error returned by `Validate`, as a function of the record and the
filesystem alone. -/
theorem Validate_result (w : World) :
    (Config.Validate w).1 =
      if w.recv.WorkersCount ≤ 0 then some "Workers count cannot be <= 0"
      else match Reference.pathCheck (statNotMissing w.fs)
              w.recv.ComponentsListFile "Components list" with
        | some e => some e
        | none =>
          match Reference.pathCheck (statNotMissing w.fs)
              w.recv.ResourcePath "Resource path" with
          | some e => some e
          | none =>
            match Reference.pathCheck (statNotMissing w.fs)
                w.recv.CrdPath "CRD path" with
            | some e => some e
            | none => if w.recv.Version = "" then some "Version is empty" else none := by
  unfold Config.Validate
  by_cases hw : w.recv.WorkersCount ≤ 0
  · simp [hw]
  · simp only [hw, if_false]
    have r1 := pathExists_result w w.recv.ComponentsListFile "Components list"
    have f1 := pathExists_frame w w.recv.ComponentsListFile "Components list"
    rcases h1 : Config.pathExists w w.recv.ComponentsListFile "Components list" with ⟨e1, w1⟩
    rw [h1] at r1 f1
    simp only at r1 f1
    rw [← r1]
    cases e1 with
    | some e => rfl
    | none =>
      simp only
      have r2 := pathExists_result w1 w1.recv.ResourcePath "Resource path"
      have f2 := pathExists_frame w1 w1.recv.ResourcePath "Resource path"
      rcases h2 : Config.pathExists w1 w1.recv.ResourcePath "Resource path" with ⟨e2, w2⟩
      rw [h2] at r2 f2
      simp only at r2 f2
      rw [f1.1, f1.2] at r2
      rw [← r2]
      cases e2 with
      | some e => rfl
      | none =>
        simp only
        have r3 := pathExists_result w2 w2.recv.CrdPath "CRD path"
        have f3 := pathExists_frame w2 w2.recv.CrdPath "CRD path"
        rcases h3 : Config.pathExists w2 w2.recv.CrdPath "CRD path" with ⟨e3, w3⟩
        rw [h3] at r3 f3
        simp only at r3 f3
        rw [f2.1, f2.2, f1.1, f1.2] at r3
        rw [← r3]
        cases e3 with
        | some e => rfl
        | none =>
          simp only
          rw [f3.1, f2.1, f1.1]
          by_cases hv : w.recv.Version = "" <;> simp [hv]


/-! ## C1: the first failing check -/

/-- C1 as stated fails: with "existing" read as "`os.Stat` succeeds", the
reference validator rejects a components list placed below a regular file
(the path does not exist, `os.Stat` answers ENOTDIR), while `Validate`
returns nil. -/
theorem C1_counterexample_not_a_directory :
    (Config.Validate ⟨Sample.belowFile, Sample.disk, []⟩).1 = none ∧
    Reference.Validate (statSucceeds Sample.disk) Sample.belowFile =
      some "Components list '/kyma/components.yaml/list' not found" := by
  constructor
  · decide
  · decide


/-- The result of `Validate` is the error of the first failing check, a path check
passing when the path is non-empty and `os.Stat` reports no not-exist error. -/
theorem Validate_eq_reference (w : World) :
    (Config.Validate w).1 = Reference.Validate (statNotMissing w.fs) w.recv := by
  rw [Validate_result]
  unfold Reference.Validate Reference.checks
  by_cases hw : w.recv.WorkersCount ≤ 0
  · have hw' : ¬ 0 < w.recv.WorkersCount := not_lt.mpr hw
    simp [hw, hw', Reference.firstFailing]
  · have hw' : 0 < w.recv.WorkersCount := not_le.mp hw
    simp only [hw, hw', if_true, if_false, Reference.firstFailing]
    cases Reference.pathCheck (statNotMissing w.fs) w.recv.ComponentsListFile
        "Components list" with
    | some e => simp [Reference.firstFailing]
    | none =>
      cases Reference.pathCheck (statNotMissing w.fs) w.recv.ResourcePath
          "Resource path" with
      | some e => simp [Reference.firstFailing]
      | none =>
        cases Reference.pathCheck (statNotMissing w.fs) w.recv.CrdPath "CRD path" with
        | some e => simp [Reference.firstFailing]
        | none =>
          by_cases hv : w.recv.Version = "" <;> simp [hv, Reference.firstFailing]

/-- The first failing check of a list is `none` exactly when no check fails. -/
theorem firstFailing_eq_none (l : List (Option String)) :
    Reference.firstFailing l = none ↔ ∀ r ∈ l, r = none := by
  induction l with
  | nil => simp [Reference.firstFailing]
  | cons a rest ih =>
    cases a with
    | none => simp [Reference.firstFailing, ih]
    | some e => simp [Reference.firstFailing]

/-- Two lists of checks that agree up to a failing check have the same first
failing check. -/
theorem firstFailing_congr (l l' : List (Option String)) (k : Nat) (e : String)
    (hk : l[k]? = some (some e)) (hagree : ∀ j, j ≤ k → l'[j]? = l[j]?) :
    Reference.firstFailing l' = Reference.firstFailing l := by
  induction l generalizing l' k with
  | nil => simp at hk
  | cons a rest ih =>
    cases l' with
    | nil =>
      have h0 := hagree 0 (Nat.zero_le k)
      simp at h0
    | cons a' rest' =>
      have h0 := hagree 0 (Nat.zero_le k)
      simp only [List.getElem?_cons_zero, Option.some.injEq] at h0
      subst h0
      cases a' with
      | some x => simp [Reference.firstFailing]
      | none =>
        cases k with
        | zero => simp at hk
        | succ k =>
          simp only [Reference.firstFailing]
          apply ih rest' k
          · simpa using hk
          · intro j hj
            have := hagree (j + 1) (Nat.succ_le_succ hj)
            simpa using this

/-- The verdict of check number `k` depends on the record only through the
field the check tests. -/
theorem checks_congr (present : String → Bool) (c c' : Config) (k : Nat)
    (h : Reference.tested k c' = Reference.tested k c) :
    (Reference.checks present c')[k]? = (Reference.checks present c)[k]? := by
  unfold Reference.checks
  match k with
  | 0 => simp [Reference.tested] at h; simp [h]
  | 1 => simp [Reference.tested] at h; simp [h]
  | 2 => simp [Reference.tested] at h; simp [h]
  | 3 => simp [Reference.tested] at h; simp [h]
  | 4 => simp [Reference.tested] at h; simp [h]
  | n + 5 => simp

/-- C1 (amended): `Validate` equals the first failing check of the five
checks, in order (1) WorkersCount > 0, (2)-(4) ComponentsListFile,
ResourcePath, CrdPath non-empty and not reported as not existing by
`os.Stat`, (5) Version non-empty; it returns nil exactly when no check
fails; and once check `k` fails, a record that agrees on the fields tested by
checks up to `k` gets the same result, whatever its other fields are. -/
theorem C1_Validate_first_failing_check (w : World) :
    (Config.Validate w).1 = Reference.Validate (statNotMissing w.fs) w.recv ∧
    ((Config.Validate w).1 = none ↔
      ∀ r ∈ Reference.checks (statNotMissing w.fs) w.recv, r = none) ∧
    (∀ (k : Nat) (e : String) (c' : Config) (log' : List String),
      (Reference.checks (statNotMissing w.fs) w.recv)[k]? = some (some e) →
      (∀ j, j ≤ k → Reference.tested j c' = Reference.tested j w.recv) →
      (Config.Validate ⟨c', w.fs, log'⟩).1 = (Config.Validate w).1) := by
  refine ⟨Validate_eq_reference w, ?_, ?_⟩
  · rw [Validate_eq_reference]
    exact firstFailing_eq_none _
  · intro k e c' log' hk hagree
    rw [Validate_eq_reference, Validate_eq_reference]
    exact firstFailing_congr _ _ k e hk
      (fun j hj => checks_congr _ _ _ j (hagree j hj))


/-- C1 (amended), at a record whose components list is absent: the check of
the components list fails, and a record agreeing on the worker count and the
components list only gets the same error. -/
theorem C1_Validate_first_failing_check_witness :
    (Reference.checks (statNotMissing Sample.disk) Sample.missingList)[1]? =
      some (some "Components list '/kyma/missing.yaml' not found") ∧
    (Config.Validate ⟨Sample.missingListOnly, Sample.disk, ["/tmp"]⟩).1 =
      (Config.Validate ⟨Sample.missingList, Sample.disk, []⟩).1 :=
  ⟨by decide,
    (C1_Validate_first_failing_check ⟨Sample.missingList, Sample.disk, []⟩).2.2 1
      "Components list '/kyma/missing.yaml' not found" Sample.missingListOnly ["/tmp"]
      (by decide)
      (by intro j hj; interval_cases j <;> rfl)⟩

/-! ## Success: what it guarantees and what guarantees it -/

/-- The result of `Validate` is nil exactly when all five checks of the source pass. -/
theorem Validate_eq_none_iff (w : World) :
    (Config.Validate w).1 = none ↔
      0 < w.recv.WorkersCount ∧
      (w.recv.ComponentsListFile ≠ "" ∧ statNotMissing w.fs w.recv.ComponentsListFile = true) ∧
      (w.recv.ResourcePath ≠ "" ∧ statNotMissing w.fs w.recv.ResourcePath = true) ∧
      (w.recv.CrdPath ≠ "" ∧ statNotMissing w.fs w.recv.CrdPath = true) ∧
      w.recv.Version ≠ "" := by
  rw [Validate_eq_reference, Reference.Validate, firstFailing_eq_none]
  simp only [Reference.checks, Reference.pathCheck, List.mem_cons, List.mem_singleton,
    forall_eq_or_imp, forall_eq, List.not_mem_nil, false_imp_iff, implies_true, and_true]
  simp only [ite_eq_left_iff, ite_eq_right_iff, reduceCtorEq, imp_false, not_not,
    Bool.not_eq_true, not_lt, not_le, ne_eq]
  constructor
  · rintro ⟨h1, h2, h3, h4, h5⟩
    refine ⟨h1, ?_, ?_, ?_, h5⟩
    · by_cases hp : w.recv.ComponentsListFile = ""
      · simp [hp] at h2
      · simpa [hp] using h2
    · by_cases hp : w.recv.ResourcePath = ""
      · simp [hp] at h3
      · simpa [hp] using h3
    · by_cases hp : w.recv.CrdPath = ""
      · simp [hp] at h4
      · simpa [hp] using h4
  · rintro ⟨h1, ⟨h2, h2'⟩, ⟨h3, h3'⟩, ⟨h4, h4'⟩, h5⟩
    simp [h1, h2, h2', h3, h3', h4, h4', h5]

/-- A path on which `os.Stat` succeeds is not reported as not existing. -/
theorem statNotMissing_of_statSucceeds (fs : FileSystem) (path : String)
    (h : statSucceeds fs path = true) : statNotMissing fs path = true := by
  unfold statSucceeds at h
  unfold statNotMissing statNotExist
  cases hr : fs path with
  | info d => simp [StatResult.err, os.IsNotExist]
  | fail e => simp [hr] at h


/-- C2 as stated fails: `Validate` returns nil for a record whose CRD path
lies in a directory that may not be searched, although `os.Stat` on that path
does not succeed (it answers EACCES). -/
theorem C2_counterexample_stat_permission_denied :
    (Config.Validate ⟨Sample.unreadable, Sample.disk, []⟩).1 = none ∧
    ¬ (statSucceeds Sample.disk Sample.unreadable.ComponentsListFile = true ∧
       statSucceeds Sample.disk Sample.unreadable.ResourcePath = true ∧
       statSucceeds Sample.disk Sample.unreadable.CrdPath = true) := by
  constructor
  · decide
  · decide

/-- C2 (amended): if `Validate` returns nil then `os.Stat` reports a
not-exist error for none of ComponentsListFile, ResourcePath and CrdPath: on
each of them it either succeeded or failed for another reason. -/
theorem C2_Validate_nil_paths_not_reported_missing (w : World)
    (h : (Config.Validate w).1 = none) :
    os.IsNotExist (w.fs w.recv.ComponentsListFile).err = false ∧
    os.IsNotExist (w.fs w.recv.ResourcePath).err = false ∧
    os.IsNotExist (w.fs w.recv.CrdPath).err = false := by
  obtain ⟨_, ⟨_, h1⟩, ⟨_, h2⟩, ⟨_, h3⟩, _⟩ := (Validate_eq_none_iff w).mp h
  simp only [statNotMissing, statNotExist, Bool.not_eq_true'] at h1 h2 h3
  exact ⟨h1, h2, h3⟩

/-- C2 (amended), at the record whose CRD path may not be looked up. -/
theorem C2_Validate_nil_paths_not_reported_missing_witness :
    (Config.Validate ⟨Sample.unreadable, Sample.disk, []⟩).1 = none ∧
    os.IsNotExist (Sample.disk "/kyma/components.yaml").err = false ∧
    os.IsNotExist (Sample.disk "/kyma/resources").err = false ∧
    os.IsNotExist (Sample.disk "/root/kyma/crds").err = false :=
  ⟨by decide,
    C2_Validate_nil_paths_not_reported_missing ⟨Sample.unreadable, Sample.disk, []⟩
      (by decide)⟩

/-- C3: if `Validate` returns nil then WorkersCount is at least 1, the three
paths are non-empty strings and Version is a non-empty string. -/
theorem C3_Validate_nil_fields_nonempty (w : World)
    (h : (Config.Validate w).1 = none) :
    1 ≤ w.recv.WorkersCount ∧
    w.recv.ComponentsListFile ≠ "" ∧
    w.recv.ResourcePath ≠ "" ∧
    w.recv.CrdPath ≠ "" ∧
    w.recv.Version ≠ "" := by
  obtain ⟨h0, ⟨h1, _⟩, ⟨h2, _⟩, ⟨h3, _⟩, h4⟩ := (Validate_eq_none_iff w).mp h
  exact ⟨h0, h1, h2, h3, h4⟩

/-- C3, at the fully valid record. -/
theorem C3_Validate_nil_fields_nonempty_witness :
    (Config.Validate ⟨Sample.valid, Sample.disk, []⟩).1 = none ∧
    (1 : Int) ≤ 4 ∧
    "/kyma/components.yaml" ≠ "" ∧ "/kyma/resources" ≠ "" ∧ "/kyma/crds" ≠ "" ∧
    "1.2.3" ≠ "" :=
  ⟨by decide,
    C3_Validate_nil_fields_nonempty ⟨Sample.valid, Sample.disk, []⟩ (by decide)⟩

/-- C4: a record with WorkersCount at least 1, three non-empty paths on which
`os.Stat` succeeds (file or directory) and a non-empty Version passes
`Validate`, whatever its other fields, and whatever was logged before. -/
theorem C4_Validate_accepts_valid (w : World)
    (hw : 1 ≤ w.recv.WorkersCount)
    (hc : w.recv.ComponentsListFile ≠ "")
    (hcs : statSucceeds w.fs w.recv.ComponentsListFile = true)
    (hr : w.recv.ResourcePath ≠ "")
    (hrs : statSucceeds w.fs w.recv.ResourcePath = true)
    (hd : w.recv.CrdPath ≠ "")
    (hds : statSucceeds w.fs w.recv.CrdPath = true)
    (hv : w.recv.Version ≠ "") :
    (Config.Validate w).1 = none :=
  (Validate_eq_none_iff w).mpr
    ⟨hw, ⟨hc, statNotMissing_of_statSucceeds _ _ hcs⟩,
      ⟨hr, statNotMissing_of_statSucceeds _ _ hrs⟩,
      ⟨hd, statNotMissing_of_statSucceeds _ _ hds⟩, hv⟩

/-- C4, at four workers, three existing paths and version 1.2.3. -/
theorem C4_Validate_accepts_valid_witness :
    Sample.valid.WorkersCount = 4 ∧ Sample.valid.Version = "1.2.3" ∧
    (Config.Validate ⟨Sample.valid, Sample.disk, []⟩).1 = none :=
  ⟨rfl, rfl,
    C4_Validate_accepts_valid ⟨Sample.valid, Sample.disk, []⟩
      (by decide) (by decide) (by decide) (by decide) (by decide) (by decide)
      (by decide) (by decide)⟩

/-! ## Failures -/

/-- C5: with WorkersCount zero or negative `Validate` fails with the
worker-count error, whatever the other fields and the filesystem are. -/
theorem C5_Validate_rejects_worker_count (w : World)
    (hw : w.recv.WorkersCount ≤ 0) :
    (Config.Validate w).1 = some "Workers count cannot be <= 0" := by
  rw [Validate_result]
  simp [hw]

/-- C5, at a record with no workers and otherwise valid fields. -/
theorem C5_Validate_rejects_worker_count_witness :
    Sample.noWorkers.WorkersCount ≤ 0 ∧
    (Config.Validate ⟨Sample.noWorkers, Sample.disk, []⟩).1 =
      some "Workers count cannot be <= 0" :=
  ⟨by decide,
    C5_Validate_rejects_worker_count ⟨Sample.noWorkers, Sample.disk, []⟩ (by decide)⟩

/-- C6: with WorkersCount at least 1 and all three paths empty, `Validate`
fails with "Components list is empty", whatever Version and the filesystem
are. -/
theorem C6_Validate_empty_paths_cite_components_list (w : World)
    (hw : 1 ≤ w.recv.WorkersCount)
    (hc : w.recv.ComponentsListFile = "")
    (_hr : w.recv.ResourcePath = "")
    (_hd : w.recv.CrdPath = "") :
    (Config.Validate w).1 = some "Components list is empty" ∧
    (Config.Validate w).1 ≠ some "Resource path is empty" ∧
    (Config.Validate w).1 ≠ some "CRD path is empty" := by
  have hw' : ¬ w.recv.WorkersCount ≤ 0 := by omega
  have key : (Config.Validate w).1 = some "Components list is empty" := by
    rw [Validate_result]
    simp only [hw', if_false, hc, Reference.pathCheck, if_true]
    decide
  rw [key]
  exact ⟨rfl, by decide, by decide⟩

/-- C6, at a record with one worker and three empty paths. -/
theorem C6_Validate_empty_paths_cite_components_list_witness :
    (Config.Validate ⟨Sample.noPaths, Sample.disk, []⟩).1 =
      some "Components list is empty" :=
  (C6_Validate_empty_paths_cite_components_list ⟨Sample.noPaths, Sample.disk, []⟩
    (by decide) rfl rfl rfl).1

/-- C7 as stated fails: the components list of this record is a non-empty
path that does not exist (it lies below a regular file, `os.Stat` answers
ENOTDIR), the worker count is 4, and `Validate` does not fail with the
"not found" message: it returns nil. -/
theorem C7_counterexample_path_below_file :
    1 ≤ Sample.belowFile.WorkersCount ∧
    Sample.belowFile.ComponentsListFile ≠ "" ∧
    statSucceeds Sample.disk Sample.belowFile.ComponentsListFile = false ∧
    (Config.Validate ⟨Sample.belowFile, Sample.disk, []⟩).1 ≠
      some ("Components list '" ++ Sample.belowFile.ComponentsListFile ++ "' not found") ∧
    (Config.Validate ⟨Sample.belowFile, Sample.disk, []⟩).1 = none := by
  refine ⟨?_, ?_, ?_, ?_, ?_⟩ <;> decide

/-- C7 (amended): with WorkersCount at least 1 and a non-empty
ComponentsListFile for which `os.Stat` reports a not-exist error, `Validate`
fails with "Components list '<path>' not found", the path unchanged,
whatever ResourcePath, CrdPath and Version are. -/
theorem C7_Validate_components_list_not_found (w : World)
    (hw : 1 ≤ w.recv.WorkersCount)
    (hc : w.recv.ComponentsListFile ≠ "")
    (hs : os.IsNotExist (w.fs w.recv.ComponentsListFile).err = true) :
    (Config.Validate w).1 =
      some ("Components list" ++ " '" ++ w.recv.ComponentsListFile ++ "' not found") := by
  have hw' : ¬ w.recv.WorkersCount ≤ 0 := by omega
  rw [Validate_result]
  simp [hw', hc, Reference.pathCheck, statNotMissing, statNotExist, hs]

/-- C7 (amended), at the record whose components list is absent. -/
theorem C7_Validate_components_list_not_found_witness :
    (Config.Validate ⟨Sample.missingList, Sample.disk, []⟩).1 =
      some ("Components list" ++ " '" ++ "/kyma/missing.yaml" ++ "' not found") :=
  C7_Validate_components_list_not_found ⟨Sample.missingList, Sample.disk, []⟩
    (by decide) (by decide) (by decide)

/-- C8: with WorkersCount at least 1, three non-empty paths on which
`os.Stat` succeeds and an empty Version, `Validate` fails with the
version error, not with a worker-count or path error. -/
theorem C8_Validate_rejects_empty_version (w : World)
    (hw : 1 ≤ w.recv.WorkersCount)
    (hc : w.recv.ComponentsListFile ≠ "")
    (hcs : statSucceeds w.fs w.recv.ComponentsListFile = true)
    (hr : w.recv.ResourcePath ≠ "")
    (hrs : statSucceeds w.fs w.recv.ResourcePath = true)
    (hd : w.recv.CrdPath ≠ "")
    (hds : statSucceeds w.fs w.recv.CrdPath = true)
    (hv : w.recv.Version = "") :
    (Config.Validate w).1 = some "Version is empty" := by
  have hw' : ¬ w.recv.WorkersCount ≤ 0 := by omega
  rw [Validate_result]
  simp [hw', hc, hr, hd, hv, Reference.pathCheck,
    statNotMissing_of_statSucceeds _ _ hcs, statNotMissing_of_statSucceeds _ _ hrs,
    statNotMissing_of_statSucceeds _ _ hds]

/-- C8, at the valid record with its version emptied. -/
theorem C8_Validate_rejects_empty_version_witness :
    (Config.Validate ⟨Sample.noVersion, Sample.disk, []⟩).1 = some "Version is empty" :=
  C8_Validate_rejects_empty_version ⟨Sample.noVersion, Sample.disk, []⟩
    (by decide) (by decide) (by decide) (by decide) (by decide) (by decide)
    (by decide) rfl


/-! ## Fields and state `Validate` does not depend on -/

/-- The world left by `Validate` has the same record and filesystem. -/
theorem Validate_frame (w : World) :
    (Config.Validate w).2.recv = w.recv ∧ (Config.Validate w).2.fs = w.fs := by
  unfold Config.Validate
  by_cases hw : w.recv.WorkersCount ≤ 0
  · simp [hw]
  · simp only [hw, if_false]
    have f1 := pathExists_frame w w.recv.ComponentsListFile "Components list"
    rcases h1 : Config.pathExists w w.recv.ComponentsListFile "Components list" with ⟨e1, w1⟩
    rw [h1] at f1
    simp only at f1
    cases e1 with
    | some e => exact f1
    | none =>
      simp only
      have f2 := pathExists_frame w1 w1.recv.ResourcePath "Resource path"
      rcases h2 : Config.pathExists w1 w1.recv.ResourcePath "Resource path" with ⟨e2, w2⟩
      rw [h2] at f2
      simp only at f2
      cases e2 with
      | some e => exact ⟨f2.1.trans f1.1, f2.2.trans f1.2⟩
      | none =>
        simp only
        have f3 := pathExists_frame w2 w2.recv.CrdPath "CRD path"
        rcases h3 : Config.pathExists w2 w2.recv.CrdPath "CRD path" with ⟨e3, w3⟩
        rw [h3] at f3
        simp only at f3
        have g : w3.recv = w.recv ∧ w3.fs = w.fs :=
          ⟨f3.1.trans (f2.1.trans f1.1), f3.2.trans (f2.2.trans f1.2)⟩
        cases e3 with
        | some e => exact g
        | none =>
          simp only
          by_cases hv : w3.recv.Version = ""
          · rw [if_pos hv]; exact g
          · rw [if_neg hv]; exact g

/-- The error returned by `Validate` is determined by the filesystem and by
the five fields WorkersCount, ComponentsListFile, ResourcePath, CrdPath and
Version. -/
theorem Validate_result_congr (w w' : World)
    (hfs : w'.fs = w.fs)
    (hwc : w'.recv.WorkersCount = w.recv.WorkersCount)
    (hcl : w'.recv.ComponentsListFile = w.recv.ComponentsListFile)
    (hrp : w'.recv.ResourcePath = w.recv.ResourcePath)
    (hcp : w'.recv.CrdPath = w.recv.CrdPath)
    (hv : w'.recv.Version = w.recv.Version) :
    (Config.Validate w').1 = (Config.Validate w).1 := by
  rw [Validate_result, Validate_result, hfs, hwc, hcl, hrp, hcp, hv]

/-- C9: two records that agree on WorkersCount, ComponentsListFile,
ResourcePath, CrdPath and Version get the same result from `Validate` under
the same filesystem, whatever their CancelTimeout, QuitTimeout,
HelmTimeoutSeconds, BackoffInitialIntervalSeconds,
BackoffMaxElapsedTimeSeconds, Log, HelmMaxRevisionHistory and Profile are;
and some record with QuitTimeout at most CancelTimeout passes `Validate`. -/
theorem C9_Validate_ignores_unvalidated_fields :
    (∀ (fs : FileSystem) (c c' : Config) (log log' : List String),
      c'.WorkersCount = c.WorkersCount →
      c'.ComponentsListFile = c.ComponentsListFile →
      c'.ResourcePath = c.ResourcePath →
      c'.CrdPath = c.CrdPath →
      c'.Version = c.Version →
      (Config.Validate ⟨c', fs, log'⟩).1 = (Config.Validate ⟨c, fs, log⟩).1) ∧
    (∃ (fs : FileSystem) (c : Config),
      c.QuitTimeout ≤ c.CancelTimeout ∧ (Config.Validate ⟨c, fs, []⟩).1 = none) := by
  constructor
  · intro fs c c' log log' hwc hcl hrp hcp hv
    exact Validate_result_congr ⟨c, fs, log⟩ ⟨c', fs, log'⟩ rfl hwc hcl hrp hcp hv
  · exact ⟨Sample.disk, Sample.quitBeforeCancel, by decide, by decide⟩

/-- C9, at the valid record and a record that differs from it in every
field that is not validated, with the quit timeout below the cancel timeout. -/
theorem C9_Validate_ignores_unvalidated_fields_witness :
    Sample.quitBeforeCancel.QuitTimeout ≤ Sample.quitBeforeCancel.CancelTimeout ∧
    Sample.quitBeforeCancel.Profile ≠ Sample.valid.Profile ∧
    (Config.Validate ⟨Sample.quitBeforeCancel, Sample.disk, []⟩).1 =
      (Config.Validate ⟨Sample.valid, Sample.disk, []⟩).1 :=
  ⟨by decide, by decide,
    C9_Validate_ignores_unvalidated_fields.1 Sample.disk Sample.valid
      Sample.quitBeforeCancel [] [] rfl rfl rfl rfl rfl⟩

/-- C10: a second call of `Validate`, made in the world the first call left
(same record behind the receiver, same filesystem), returns what the first
call returned: nil both times, or an error with the same message both times;
the same holds for a later call in any world with that record and that
filesystem. -/
theorem C10_Validate_twice_same_result (w : World) :
    (Config.Validate (Config.Validate w).2).1 = (Config.Validate w).1 ∧
    (∀ log : List String,
      (Config.Validate ⟨(Config.Validate w).2.recv, w.fs, log⟩).1 = (Config.Validate w).1) := by
  have f := Validate_frame w
  constructor
  · exact Validate_result_congr w (Config.Validate w).2 f.2
      (by rw [f.1]) (by rw [f.1]) (by rw [f.1]) (by rw [f.1]) (by rw [f.1])
  · intro log
    exact Validate_result_congr w ⟨(Config.Validate w).2.recv, w.fs, log⟩ rfl
      (by rw [f.1]) (by rw [f.1]) (by rw [f.1]) (by rw [f.1]) (by rw [f.1])


/-! ## The receiver is only read -/

/-- C11: `Validate` is read-only on its receiver: after the call, on success
and on every failure path, the record behind the receiver, hence every field
of it, equals the record before the call. -/
theorem C11_Validate_leaves_receiver_unchanged (w : World) :
    (Config.Validate w).2.recv = w.recv ∧
    (∀ e, (Config.Validate w).1 = some e → (Config.Validate w).2.recv = w.recv) ∧
    ((Config.Validate w).1 = none → (Config.Validate w).2.recv = w.recv) :=
  ⟨(Validate_frame w).1, fun _ _ => (Validate_frame w).1, fun _ => (Validate_frame w).1⟩

/-- C11, on a failure path (no workers) and on the success path. -/
theorem C11_Validate_leaves_receiver_unchanged_witness :
    (Config.Validate ⟨Sample.noWorkers, Sample.disk, []⟩).1 =
      some "Workers count cannot be <= 0" ∧
    (Config.Validate ⟨Sample.noWorkers, Sample.disk, []⟩).2.recv.WorkersCount = 0 ∧
    (Config.Validate ⟨Sample.valid, Sample.disk, []⟩).2.recv.Version = "1.2.3" :=
  ⟨by decide,
    congrArg Config.WorkersCount
      ((C11_Validate_leaves_receiver_unchanged ⟨Sample.noWorkers, Sample.disk, []⟩).2.1
        "Workers count cannot be <= 0" (by decide)),
    congrArg Config.Version
      ((C11_Validate_leaves_receiver_unchanged ⟨Sample.valid, Sample.disk, []⟩).2.2
        (by decide))⟩

/-! ## What the message tells -/

/-- The error of `pathExists` is the message of the return statement reached. -/
theorem pathCheck_eq_pathFailure (fs : FileSystem) (path : String) (field : PathField) :
    Reference.pathCheck (statNotMissing fs) path field.description =
      (Config.pathFailure fs path field).map Failure.message := by
  unfold Reference.pathCheck Config.pathFailure statNotMissing statNotExist
  by_cases hp : path = ""
  · simp [hp, Failure.message]
  · by_cases hs : os.IsNotExist (fs path).err = true <;> simp [hp, hs, Failure.message]

/-- The error of `Validate` is the message of the return statement reached. -/
theorem Validate_eq_failedCheck (w : World) :
    (Config.Validate w).1 = (Config.failedCheck w).map Failure.message := by
  rw [Validate_result]
  unfold Config.failedCheck
  have e1 := pathCheck_eq_pathFailure w.fs w.recv.ComponentsListFile .componentsListFile
  have e2 := pathCheck_eq_pathFailure w.fs w.recv.ResourcePath .resourcePath
  have e3 := pathCheck_eq_pathFailure w.fs w.recv.CrdPath .crdPath
  simp only [PathField.description] at e1 e2 e3
  rw [e1, e2, e3]
  by_cases hw : w.recv.WorkersCount ≤ 0
  · simp [hw, Failure.message]
  · simp only [hw, if_false]
    cases Config.pathFailure w.fs w.recv.ComponentsListFile .componentsListFile with
    | some f => simp
    | none =>
      cases Config.pathFailure w.fs w.recv.ResourcePath .resourcePath with
      | some f => simp
      | none =>
        cases Config.pathFailure w.fs w.recv.CrdPath .crdPath with
        | some f => simp
        | none => by_cases hv : w.recv.Version = "" <;> simp [hv, Failure.message]

/-- Different failing return statements build different messages. -/
theorem Failure.message_injective (f g : Failure) (h : f.message = g.message) : f = g := by
  have hd := congrArg String.data h
  cases f with
  | workersCount =>
    cases g with
    | workersCount => rfl
    | pathEmpty b => cases b <;> simp [Failure.message, PathField.description] at hd
    | pathNotFound b q =>
      cases b <;> simp [Failure.message, PathField.description, String.data_append] at hd
    | versionEmpty => simp [Failure.message] at hd
  | pathEmpty a =>
    cases g with
    | workersCount => cases a <;> simp [Failure.message, PathField.description] at hd
    | pathEmpty b =>
      cases a <;> cases b <;>
        first
        | rfl
        | simp [Failure.message, PathField.description] at hd
    | pathNotFound b q =>
      cases a <;> cases b <;>
        simp [Failure.message, PathField.description, String.data_append] at hd
    | versionEmpty => cases a <;> simp [Failure.message, PathField.description] at hd
  | pathNotFound a p =>
    cases g with
    | workersCount =>
      cases a <;> simp [Failure.message, PathField.description, String.data_append] at hd
    | pathEmpty b =>
      cases a <;> cases b <;>
        simp [Failure.message, PathField.description, String.data_append] at hd
    | pathNotFound b q =>
      cases a <;> cases b <;>
        simp [Failure.message, PathField.description, String.data_append] at hd <;>
        rw [String.ext hd]
    | versionEmpty =>
      cases a <;> simp [Failure.message, PathField.description, String.data_append] at hd
  | versionEmpty =>
    cases g with
    | workersCount => simp [Failure.message] at hd
    | pathEmpty b => cases b <;> simp [Failure.message, PathField.description] at hd
    | pathNotFound b q =>
      cases b <;> simp [Failure.message, PathField.description, String.data_append] at hd
    | versionEmpty => rfl

/-- C12: if two failing calls of `Validate` (any records, any filesystems)
return equal messages, both reached the same failing return statement: both
the worker-count failure, or both the version failure, or both the same path
field with both "is empty" or both "not found" on the same path. -/
theorem C12_Validate_message_identifies_failure (w w' : World) (m : String)
    (h : (Config.Validate w).1 = some m) (h' : (Config.Validate w').1 = some m) :
    ∃ f : Failure,
      Config.failedCheck w = some f ∧ Config.failedCheck w' = some f ∧ f.message = m := by
  rw [Validate_eq_failedCheck] at h h'
  cases hf : Config.failedCheck w with
  | none => simp [hf] at h
  | some f =>
    cases hg : Config.failedCheck w' with
    | none => simp [hg] at h'
    | some g =>
      simp only [hf, Option.map_some', Option.some.injEq] at h
      simp only [hg, Option.map_some', Option.some.injEq] at h'
      have hfg : g = f := Failure.message_injective g f (h'.trans h.symm)
      exact ⟨f, rfl, by rw [hfg], h⟩

/-- C12, at two different records that both lack the components list. -/
theorem C12_Validate_message_identifies_failure_witness :
    ∃ f : Failure,
      Config.failedCheck ⟨Sample.missingList, Sample.disk, []⟩ = some f ∧
      Config.failedCheck ⟨Sample.missingListOnly, Sample.disk, ["/tmp"]⟩ = some f ∧
      f.message = "Components list '/kyma/missing.yaml' not found" :=
  C12_Validate_message_identifies_failure ⟨Sample.missingList, Sample.disk, []⟩
    ⟨Sample.missingListOnly, Sample.disk, ["/tmp"]⟩
    "Components list '/kyma/missing.yaml' not found" (by decide) (by decide)


/-- C13 as stated fails: with no workers the message returned is not the
string "workers count cannot be ≤ 0"; the source writes a capital W and the
two characters `<=`. -/
theorem C13_counterexample_message_text :
    Sample.noWorkers.WorkersCount ≤ 0 ∧
    (Config.Validate ⟨Sample.noWorkers, Sample.disk, []⟩).1 ≠
      some "workers count cannot be ≤ 0" := by
  constructor
  · decide
  · decide

/-- C13 (amended): for every record with WorkersCount zero or negative the
message of the error returned by `Validate` is exactly the string
"Workers count cannot be <= 0", which is not the string
"workers count cannot be ≤ 0". -/
theorem C13_Validate_worker_count_message (w : World)
    (hw : w.recv.WorkersCount ≤ 0) :
    ∃ m : String, (Config.Validate w).1 = some m ∧
      m = "Workers count cannot be <= 0" ∧ m ≠ "workers count cannot be ≤ 0" := by
  refine ⟨"Workers count cannot be <= 0", ?_, rfl, by decide⟩
  rw [Validate_eq_failedCheck]
  simp [Config.failedCheck, hw, Failure.message]

/-- C13 (amended), at a record with a negative worker count and nothing else
set. -/
theorem C13_Validate_worker_count_message_witness :
    ∃ m : String,
      (Config.Validate ⟨⟨-3, 0, 0, 0, 0, 0, none, 0, "", "", "", "", ""⟩,
        Sample.disk, []⟩).1 = some m ∧
      m = "Workers count cannot be <= 0" ∧ m ≠ "workers count cannot be ≤ 0" :=
  C13_Validate_worker_count_message
    ⟨⟨-3, 0, 0, 0, 0, 0, none, 0, "", "", "", "", ""⟩, Sample.disk, []⟩ (by decide)

/-! ## Stat failures other than not-exist -/

/-- C14: `pathExists` rejects a non-empty path exactly when `os.Stat` reports
a not-exist error; for a non-empty path whose stat fails with an error that
is not a not-exist error it returns nil; and a record with WorkersCount at
least 1, a non-empty Version and three such paths passes `Validate`. -/
theorem C14_stat_failures_other_than_not_exist_pass :
    (∀ (w : World) (path description : String), path ≠ "" →
      ((Config.pathExists w path description).1 ≠ none ↔
        os.IsNotExist (w.fs path).err = true)) ∧
    (∀ (w : World) (path description : String) (e : Errno), path ≠ "" →
      w.fs path = .fail e → os.IsNotExist (some e) = false →
      (Config.pathExists w path description).1 = none) ∧
    (∀ (w : World) (e1 e2 e3 : Errno),
      1 ≤ w.recv.WorkersCount → w.recv.Version ≠ "" →
      w.recv.ComponentsListFile ≠ "" → w.fs w.recv.ComponentsListFile = .fail e1 →
      os.IsNotExist (some e1) = false →
      w.recv.ResourcePath ≠ "" → w.fs w.recv.ResourcePath = .fail e2 →
      os.IsNotExist (some e2) = false →
      w.recv.CrdPath ≠ "" → w.fs w.recv.CrdPath = .fail e3 →
      os.IsNotExist (some e3) = false →
      (Config.Validate w).1 = none) := by
  refine ⟨?_, ?_, ?_⟩
  · intro w path description hp
    rw [pathExists_result]
    unfold Reference.pathCheck statNotMissing statNotExist
    by_cases hs : os.IsNotExist (w.fs path).err = true <;> simp [hp, hs]
  · intro w path description e hp hf he
    rw [pathExists_result]
    unfold Reference.pathCheck statNotMissing statNotExist
    simp [hp, hf, StatResult.err, he]
  · intro w e1 e2 e3 hw hv hc hc1 hc2 hr hr1 hr2 hd hd1 hd2
    refine (Validate_eq_none_iff w).mpr ⟨hw, ⟨hc, ?_⟩, ⟨hr, ?_⟩, ⟨hd, ?_⟩, hv⟩
    · simp [statNotMissing, statNotExist, hc1, StatResult.err, hc2]
    · simp [statNotMissing, statNotExist, hr1, StatResult.err, hr2]
    · simp [statNotMissing, statNotExist, hd1, StatResult.err, hd2]

/-- C14, at a record whose components list lies below a regular file
(ENOTDIR) and whose two other paths lie in a directory that may not be
searched (EACCES). -/
theorem C14_stat_failures_other_than_not_exist_pass_witness :
    Sample.disk "/kyma/components.yaml/list" = .fail .ENOTDIR ∧
    Sample.disk "/root/kyma/crds" = .fail .EACCES ∧
    (Config.Validate ⟨Sample.unreachable, Sample.disk, []⟩).1 = none :=
  ⟨by decide, by decide,
    C14_stat_failures_other_than_not_exist_pass.2.2 ⟨Sample.unreachable, Sample.disk, []⟩
      .ENOTDIR .EACCES .EACCES (by decide) (by decide)
      (by decide) (by decide) (by decide)
      (by decide) (by decide) (by decide)
      (by decide) (by decide) (by decide)⟩


/-! ## The calls of `os.Stat` -/

/-- The whole outcome of `pathExists`: its error, and a world in which only
the log grew, by the path when the path is non-empty. -/
theorem pathExists_eq (w : World) (path description : String) :
    Config.pathExists w path description =
      (Reference.pathCheck (statNotMissing w.fs) path description,
        ⟨w.recv, w.fs, w.statLog ++ (if path = "" then [] else [path])⟩) := by
  unfold Config.pathExists os.Stat Reference.pathCheck statNotMissing statNotExist
  by_cases hp : path = ""
  · simp [hp]
  · by_cases hs : os.IsNotExist (w.fs path).err = true <;> simp [hp, hs]

/-- The log after `Validate` is the log before it followed by the probes. -/
theorem Validate_statLog (w : World) :
    (Config.Validate w).2.statLog = w.statLog ++ Reference.probes w.fs w.recv := by
  unfold Config.Validate Reference.probes
  by_cases hw : w.recv.WorkersCount ≤ 0
  · simp [hw]
  · simp only [hw, if_false, pathExists_eq]
    unfold Reference.pathCheck statNotMissing
    by_cases hc : w.recv.ComponentsListFile = ""
    · simp [hc]
    · by_cases hcs : statNotExist w.fs w.recv.ComponentsListFile = true
      · simp [hc, hcs]
      · by_cases hr : w.recv.ResourcePath = ""
        · simp [hc, hcs, hr]
        · by_cases hrs : statNotExist w.fs w.recv.ResourcePath = true
          · simp [hc, hcs, hr, hrs]
          · by_cases hd : w.recv.CrdPath = ""
            · simp [hc, hcs, hr, hrs, hd]
            · by_cases hds : statNotExist w.fs w.recv.CrdPath = true
              · simp [hc, hcs, hr, hrs, hd, hds]
              · by_cases hv : w.recv.Version = "" <;>
                  simp [hc, hcs, hr, hrs, hd, hds, hv]


/-- The probes are an initial segment of the three paths, in field order. -/
theorem probes_isPrefix (fs : FileSystem) (c : Config) :
    Reference.probes fs c <+: [c.ComponentsListFile, c.ResourcePath, c.CrdPath] := by
  unfold Reference.probes
  split_ifs
  · exact List.nil_prefix
  · exact List.nil_prefix
  · exact ⟨[c.ResourcePath, c.CrdPath], rfl⟩
  · exact ⟨[c.ResourcePath, c.CrdPath], rfl⟩
  · exact ⟨[c.CrdPath], rfl⟩
  · exact ⟨[c.CrdPath], rfl⟩
  · exact List.prefix_refl _

/-- No probe is the empty path. -/
theorem probes_nonempty (fs : FileSystem) (c : Config) : "" ∉ Reference.probes fs c := by
  unfold Reference.probes
  split_ifs with h0 h1 h2 h3 h4 h5 <;> simp <;> tauto

/-- When check number `k` fails, at most `k` probes are made. -/
theorem probes_length_le (fs : FileSystem) (c : Config) (k : Nat) (e : String)
    (hk : (Reference.checks (statNotMissing fs) c)[k]? = some (some e)) :
    (Reference.probes fs c).length ≤ k := by
  have h3 : (Reference.probes fs c).length ≤ 3 := by
    have := (probes_isPrefix fs c).length_le
    simpa using this
  unfold Reference.checks at hk
  match k with
  | 0 =>
    have hw : c.WorkersCount ≤ 0 := by
      by_contra hcon
      have : 0 < c.WorkersCount := not_le.mp hcon
      simp [this] at hk
    simp [Reference.probes, hw]
  | 1 =>
    unfold Reference.probes
    simp only [List.getElem?_cons_succ, List.getElem?_cons_zero, Option.some.injEq,
      Reference.pathCheck, statNotMissing] at hk
    by_cases hc : c.ComponentsListFile = ""
    · simp [hc]
    · by_cases hcs : statNotExist fs c.ComponentsListFile = true
      · simp only [hc, hcs, if_false, if_true]
        split_ifs <;> simp
      · simp [hc, hcs] at hk
  | 2 =>
    unfold Reference.probes
    simp only [List.getElem?_cons_succ, List.getElem?_cons_zero, Option.some.injEq,
      Reference.pathCheck, statNotMissing] at hk
    by_cases hr : c.ResourcePath = ""
    · simp only [hr, if_true]
      split_ifs <;> simp
    · by_cases hrs : statNotExist fs c.ResourcePath = true
      · simp only [hr, hrs, if_false, if_true]
        split_ifs <;> simp
      · simp [hr, hrs] at hk
  | 3 => exact h3
  | n + 4 => omega

/-- C15 as stated fails: with one existing directory in all three path
fields `os.Stat` is called three times on that one path, so a path is probed
more than once. -/
theorem C15_counterexample_same_path_probed_thrice :
    (Config.Validate ⟨Sample.sameDirectory, Sample.disk, []⟩).2.statLog =
      ["/kyma/resources", "/kyma/resources", "/kyma/resources"] ∧
    ((Config.Validate ⟨Sample.sameDirectory, Sample.disk, []⟩).2.statLog).count
      "/kyma/resources" = 3 ∧
    ¬ ((Config.Validate ⟨Sample.sameDirectory, Sample.disk, []⟩).2.statLog).Nodup := by
  refine ⟨?_, ?_, ?_⟩ <;> decide

/-- C15 (amended): the calls of `os.Stat` made by `Validate` are an initial
segment of ComponentsListFile, ResourcePath, CrdPath (at most three calls, in
that order, at most one per path field); none is made when WorkersCount is
zero or negative, none is made on an empty path, and when check number `k`
(counted from 0) fails at most `k` calls are made, so no path of a later
check is probed. A path is probed at most as often as it occurs among the
three fields, hence at most once when the three fields differ. -/
theorem C15_Validate_stat_calls (w : World) :
    ∃ calls : List String,
      (Config.Validate w).2.statLog = w.statLog ++ calls ∧
      calls <+: [w.recv.ComponentsListFile, w.recv.ResourcePath, w.recv.CrdPath] ∧
      calls.length ≤ 3 ∧
      (w.recv.WorkersCount ≤ 0 → calls = []) ∧
      "" ∉ calls ∧
      (∀ (k : Nat) (e : String),
        (Reference.checks (statNotMissing w.fs) w.recv)[k]? = some (some e) →
        calls.length ≤ k) ∧
      (∀ path : String,
        calls.count path ≤
          [w.recv.ComponentsListFile, w.recv.ResourcePath, w.recv.CrdPath].count path) ∧
      (w.recv.ComponentsListFile ≠ w.recv.ResourcePath →
        w.recv.ComponentsListFile ≠ w.recv.CrdPath →
        w.recv.ResourcePath ≠ w.recv.CrdPath → calls.Nodup) := by
  refine ⟨Reference.probes w.fs w.recv, Validate_statLog w, probes_isPrefix _ _, ?_, ?_,
    probes_nonempty _ _, fun k e hk => probes_length_le _ _ k e hk, ?_, ?_⟩
  · have := (probes_isPrefix w.fs w.recv).length_le
    simpa using this
  · intro hw
    simp [Reference.probes, hw]
  · intro path
    exact (probes_isPrefix w.fs w.recv).sublist.count_le path
  · intro h12 h13 h23
    refine List.Nodup.sublist (probes_isPrefix w.fs w.recv).sublist ?_
    simp [h12, h13, h23]

/-- C15 (amended), at a record whose resource path is absent and whose three
paths differ: the check of the resource path (number 2) fails, at most two
calls are added to the log, and no path is probed twice. -/
theorem C15_Validate_stat_calls_witness :
    ∃ calls : List String,
      (Config.Validate ⟨Sample.missingResources, Sample.disk, ["/tmp"]⟩).2.statLog =
        ["/tmp"] ++ calls ∧
      calls <+: ["/kyma/components.yaml", "/kyma/nothing", "/kyma/crds"] ∧
      calls.length ≤ 2 ∧
      calls.Nodup := by
  obtain ⟨calls, h1, h2, _, _, _, h6, _, h8⟩ :=
    C15_Validate_stat_calls ⟨Sample.missingResources, Sample.disk, ["/tmp"]⟩
  exact ⟨calls, h1, h2, h6 2 "Resource path '/kyma/nothing' not found" (by decide),
    h8 (by decide) (by decide) (by decide)⟩


end ParallelInstall
